import Mathlib

/-!
Verification development for the Acms repository
(src/API_Testing_Agent-main): a shallow embedding in Lean 4 of the
spec parser (src/spec_parser.py), test generator (src/test_generator.py),
test runner (src/test_runner.py), story parser (src/story_parser.py) and
the formatting helpers (src/utils/formatters.py), together with theorems
settling the frozen claims C1 to C10 about these components.

Machine floats of the Python source are modelled as rationals; Python
dictionaries that the claims touch only through their keys and key order
are modelled as lists of keys in insertion order.
-/

namespace Acms

/-! ### String helpers (Python string semantics on lists of characters) -/

/-- Python default whitespace set for str.strip and the regex class backslash-s
(ASCII part, which is all that occurs in the inputs at hand). -/
def isPyWhitespace (c : Char) : Bool :=
  c = ' ' || c = '\t' || c = '\n' || c = '\r' || c = '\x0b' || c = '\x0c'

/-- Remove the characters satisfying p from both ends of a list. -/
def stripList (p : Char → Bool) (l : List Char) : List Char :=
  ((l.dropWhile p).reverse.dropWhile p).reverse

/-- Python str.strip() with the default whitespace set. -/
def pyStrip (s : String) : String := String.mk (stripList isPyWhitespace s.toList)

/-- Python str.strip(c) for a single character c. -/
def pyStripChar (c : Char) (s : String) : String :=
  String.mk (stripList (fun d => d = c) s.toList)

/-- Python str.lower() (ASCII case mapping suffices for the inputs at hand). -/
def pyLower (s : String) : String := String.mk (s.toList.map Char.toLower)

/-- Python str.upper() (ASCII case mapping suffices for the inputs at hand). -/
def pyUpper (s : String) : String := String.mk (s.toList.map Char.toUpper)

/-- Value of an ASCII digit character, none otherwise. -/
def digitVal (c : Char) : Option Nat :=
  if 48 ≤ c.toNat && c.toNat ≤ 57 then some (c.toNat - 48) else none

def isDigitChar (c : Char) : Bool := (digitVal c).isSome

/-- Python int(s) on a status-code key: a nonempty string of ASCII digits
(sign or whitespace forms do not occur as OpenAPI response keys). -/
def parseNatDigits (l : List Char) : Option Nat :=
  if l.isEmpty then none
  else
    l.foldl
      (fun acc c =>
        match acc, digitVal c with
        | some n, some d => some (n * 10 + d)
        | _, _ => none)
      (some 0)

def pyIntOpt (s : String) : Option Nat := parseNatDigits s.toList

/-- Python substring containment, the `in` operator on strings. -/
def hasSubList : List Char → List Char → Bool
  | pat, [] => pat.isEmpty
  | pat, c :: rest => pat.isPrefixOf (c :: rest) || hasSubList pat rest

def hasSub (s pat : String) : Bool := hasSubList pat.toList s.toList

/-- Python str.replace(pat, ""): delete every occurrence of pat, scanning left to
right without overlap.  Fuel-driven recursion; the fuel is the input length. -/
def removeSubAux (pat : List Char) : Nat → List Char → List Char
  | 0, _ => []
  | _ + 1, [] => []
  | fuel + 1, c :: rest =>
    if !pat.isEmpty && pat.isPrefixOf (c :: rest) then
      removeSubAux pat fuel ((c :: rest).drop pat.length)
    else c :: removeSubAux pat fuel rest

def removeSub (s pat : String) : String :=
  String.mk (removeSubAux pat.toList s.toList.length s.toList)

/-- Numeric value of a list of ASCII digits (most significant first). -/
def natOfDigits (l : List Char) : Nat :=
  l.foldl (fun a c => a * 10 + (c.toNat - 48)) 0

/-- Python float(s) restricted to the plain decimal forms that occur as pytest
duration numbers: an optional sign, then digits with an optional fractional
part, at least one digit in total.  Any other string (in particular one with a
trailing unit letter such as "100m") is a ValueError, modelled as none.
Exponent, infinity and NaN forms do not occur in pytest duration tokens. -/
def parseUnsignedDecimal (l : List Char) : Option ℚ :=
  let intPart := l.takeWhile isDigitChar
  let rest := l.drop intPart.length
  match rest with
  | [] =>
    if intPart.isEmpty then none
    else some ((natOfDigits intPart : ℚ))
  | '.' :: frac =>
    if frac.all isDigitChar && !(intPart.isEmpty && frac.isEmpty) then
      some ((natOfDigits intPart : ℚ) + (natOfDigits frac : ℚ) / ((10 : ℚ) ^ frac.length))
    else none
  | _ => none

def parseFloatQ (s : String) : Option ℚ :=
  match s.toList with
  | '-' :: rest => (parseUnsignedDecimal rest).map Neg.neg
  | '+' :: rest => parseUnsignedDecimal rest
  | l => parseUnsignedDecimal l

/-- Python str.split(c) for one separator character. -/
def splitOnCharAux : List Char → Char → List (List Char)
  | [], _ => [[]]
  | ch :: rest, c =>
    let r := splitOnCharAux rest c
    if ch = c then [] :: r
    else
      match r with
      | [] => [[ch]]
      | h :: t => (ch :: h) :: t

def splitLines (s : String) : List (List Char) := splitOnCharAux s.toList '\n'

/-! ### src/utils/formatters.py -/

def isLowerAlnum (c : Char) : Bool :=
  (97 ≤ c.toNat && c.toNat ≤ 122) || (48 ≤ c.toNat && c.toNat ≤ 57)

/-- The substitution re.sub of one underscore for every maximal run of
characters outside lowercase a-z and 0-9, as used by format_test_name.
The boolean argument records whether the character before the current one was
part of a run already replaced by an underscore. -/
def collapseNonAlnumAux : Bool → List Char → List Char
  | _, [] => []
  | inRun, c :: rest =>
    if isLowerAlnum c then c :: collapseNonAlnumAux false rest
    else if inRun then collapseNonAlnumAux true rest
    else '_' :: collapseNonAlnumAux true rest

/-- format_test_name from src/utils/formatters.py: join base name and scenario
with an underscore, lowercase, collapse non-alphanumeric runs to single
underscores, strip underscores at the ends, and ensure the test_ name start. -/
def format_test_name (base_name scenario : String) : String :=
  let full_name := base_name ++ "_" ++ scenario
  let name := pyLower full_name
  let name := String.mk (collapseNonAlnumAux false name.toList)
  let name := pyStripChar '_' name
  if ("test_".toList).isPrefixOf name.toList then name else "test_" ++ name

/-- format_endpoint_path from src/utils/formatters.py. -/
def format_endpoint_path (path method : String) : String :=
  pyUpper method ++ " " ++ path

/-! ### src/spec_parser.py : endpoint extraction -/

/-- The fields of an OpenAPI operation object that the extraction and the test
generator read.  Per SpecParser._extract_endpoints, absent keys default to an
empty string or empty list (operation.get with a default); responses carries
the response status keys in document (insertion) order, the response bodies
being irrelevant to every claim.  The operation_id, description, parameters,
request_body and security fields are never read on the verified paths and are
omitted. -/
structure Operation where
  summary : String := ""
  tags : List String := []
  responses : List String := []
deriving Repr, DecidableEq

/-- A path item as a list of key-operation bindings in document order
(a parsed YAML or JSON mapping). -/
abbrev PathItem := List (String × Operation)

/-- The endpoint dictionary built by SpecParser._extract_endpoints, restricted
to the fields the claims touch. -/
structure Endpoint where
  path : String
  method : String
  summary : String
  tags : List String
  responses : List String
deriving Repr, DecidableEq

/-- The fixed method iteration order of SpecParser._extract_endpoints. -/
def httpMethods : List String := ["get", "post", "put", "delete", "patch", "head", "options"]

/-- Python membership and indexing into the path-item mapping. -/
def lookupKey (item : PathItem) (m : String) : Option Operation :=
  (item.find? (fun kv => kv.1 == m)).map (fun kv => kv.2)

def mkEndpointInfo (path m : String) (op : Operation) : Endpoint :=
  { path := path
  , method := pyUpper m
  , summary := op.summary
  , tags := op.tags
  , responses := op.responses }

/-- SpecParser._extract_endpoints: for each path in document order, for each
method of the fixed seven-method list that the path item declares, emit one
endpoint record. -/
def extractEndpoints (paths : List (String × PathItem)) : List Endpoint :=
  paths.flatMap (fun pi =>
    httpMethods.filterMap (fun m => (lookupKey pi.2 m).map (mkEndpointInfo pi.1 m)))

/-- validate_endpoint from src/utils/validators.py, on the model: the path item
must declare at least one of the seven recognized methods (the operation
objects are mappings by construction here). -/
def validateEndpointOk (item : PathItem) : Bool :=
  !(httpMethods.filter (fun m => (lookupKey item m).isSome)).isEmpty

/-- The operation keys of an OpenAPI 3.0 path item object, per the OpenAPI
specification: the seven methods recognized by the code plus trace.  Used only
to state what claim C6 calls a method explicitly declared in the document. -/
def openapiOperationKeys : List String :=
  ["get", "put", "post", "delete", "options", "head", "patch", "trace"]

/-- Claim-side reading for C6: the (path, METHOD) pairs explicitly declared in
the document, with methods uppercased as getEndpoints reports them. -/
def declaredMethodPairs (paths : List (String × PathItem)) : List (String × String) :=
  paths.flatMap (fun pi =>
    ((pi.2.map (fun kv => kv.1)).filter (fun k => openapiOperationKeys.contains k)).map
      (fun m => (pi.1, pyUpper m)))

/-! ### src/test_generator.py -/

/-- TestCase from src/test_generator.py restricted to the fields the claims
touch; input_data and expected_response are always the empty mapping on the
generated paths and story_id, story_title are always absent, so they are
omitted. -/
structure TestCase where
  id : String
  name : String
  endpoint : String
  method : String
  description : String
  scenario_type : String
  expected_status : Nat
  assertions : List String
  tags : List String
deriving Repr, DecidableEq

/-- The id expression of every generated test case: the string test_ followed
by len(self.test_cases) + 1, where n is the number of test cases stored on the
generator when the expression is evaluated. -/
def mkTestId (n : Nat) : String := "test_" ++ toString (n + 1)

/-- The expected-status computation of _generate_happy_path_tests: a default
by method (201 for POST, 204 for DELETE, 200 otherwise), overridden by the
first response key in declared order that parses as an integer in [200, 300). -/
def happyExpectedStatus (ep : Endpoint) : Nat :=
  let base := if ep.method = "POST" then 201 else if ep.method = "DELETE" then 204 else 200
  match ep.responses.findSome? (fun k =>
      match pyIntOpt k with
      | some s => if 200 ≤ s && s < 300 then some s else none
      | none => none) with
  | some s => s
  | none => base

/-- TestGenerator._generate_happy_path_tests, with n the size of
self.test_cases at call time. -/
def generateHappyPathTests (n : Nat) (ep : Endpoint) : List TestCase :=
  let expected := happyExpectedStatus ep
  [{ id := mkTestId n
   , name := format_test_name ep.summary "happy_path"
   , endpoint := ep.path
   , method := ep.method
   , description := "Happy path test for " ++ format_endpoint_path ep.path ep.method
   , scenario_type := "happy_path"
   , expected_status := expected
   , assertions :=
       [ "Status code is " ++ toString expected
       , "Response body is not empty"
       , "Response contains expected fields" ]
   , tags := "happy_path" :: ep.tags }]

/-- The fixed edge-case table of _generate_edge_case_tests (name,
description); each case carries expected status 200. -/
def edgeCaseDefs : List (String × String) :=
  [ ("with_empty_collection", "Test with empty collection response")
  , ("with_null_values", "Test with null values in response")
  , ("with_large_dataset", "Test with large dataset") ]

/-- TestGenerator._generate_edge_case_tests.  The three cases accumulate in a
local list, so len(self.test_cases) is still n for each of them and all three
receive the same id. -/
def generateEdgeCaseTests (n : Nat) (ep : Endpoint) : List TestCase :=
  edgeCaseDefs.map (fun cd =>
    { id := mkTestId n
    , name := format_test_name ep.summary cd.1
    , endpoint := ep.path
    , method := ep.method
    , description := cd.2
    , scenario_type := "edge_case"
    , expected_status := 200
    , assertions := ["Status code is 200", "Response handles edge case correctly"]
    , tags := "edge_case" :: ep.tags })

/-- The fixed error-scenario table of _generate_error_scenario_tests
(status, name, description) in source order. -/
def errorScenarioDefs : List (Nat × String × String) :=
  [ (400, "invalid_input", "Invalid input data")
  , (401, "missing_auth", "Missing authentication")
  , (403, "insufficient_permissions", "Insufficient permissions")
  , (404, "not_found", "Resource not found")
  , (409, "conflict", "Conflict/version mismatch")
  , (500, "server_error", "Server error") ]

/-- The emission condition of _generate_error_scenario_tests: the status is a
documented response key or one of the four always-included statuses. -/
def errorScenarioKeeps (ep : Endpoint) (status : Nat) : Bool :=
  decide (toString status ∈ ep.responses) ||
    (status == 400 || status == 401 || status == 403 || status == 404)

/-- TestGenerator._generate_error_scenario_tests, with n the size of
self.test_cases at call time; as with the edge cases, every kept scenario
receives the same id. -/
def generateErrorScenarioTests (n : Nat) (ep : Endpoint) : List TestCase :=
  (errorScenarioDefs.filter (fun sc => errorScenarioKeeps ep sc.1)).map (fun sc =>
    { id := mkTestId n
    , name := format_test_name ep.summary sc.2.1
    , endpoint := ep.path
    , method := ep.method
    , description := sc.2.2
    , scenario_type := "error_scenario"
    , expected_status := sc.1
    , assertions :=
        [ "Status code is " ++ toString sc.1
        , "Error message is clear"
        , "Error response follows standard format" ]
    , tags := "error_scenario" :: ep.tags })

/-- The fixed security-test table of _generate_security_tests
(name, description, expected status). -/
def securityTestDefs : List (String × String × Nat) :=
  [ ("missing_auth_token", "Test without authentication token", 401)
  , ("invalid_auth_token", "Test with invalid authentication token", 401)
  , ("expired_auth_token", "Test with expired authentication token", 401)
  , ("insufficient_permissions", "Test with insufficient permissions", 403) ]

/-- TestGenerator._generate_security_tests; the guard in the source is
security or True, so the four cases are emitted for every endpoint, each with
the same id for the same local-accumulation reason. -/
def generateSecurityTests (n : Nat) (ep : Endpoint) : List TestCase :=
  securityTestDefs.map (fun td =>
    { id := mkTestId n
    , name := format_test_name ep.summary td.1
    , endpoint := ep.path
    , method := ep.method
    , description := td.2.1
    , scenario_type := "security"
    , expected_status := td.2.2
    , assertions := ["Status code is " ++ toString td.2.2, "Security validation is enforced"]
    , tags := "security" :: ep.tags })

/-- One iteration of the endpoint loop of generate_all_tests: the four
category batches in order, each batch seeing the count of test cases extended
onto self.test_cases before it started. -/
def generateForEndpoint (n : Nat) (ep : Endpoint) : List TestCase :=
  let h := generateHappyPathTests n ep
  let e := generateEdgeCaseTests (n + h.length) ep
  let er := generateErrorScenarioTests (n + h.length + e.length) ep
  let s := generateSecurityTests (n + h.length + e.length + er.length) ep
  h ++ e ++ er ++ s

/-- The endpoint loop of generate_all_tests starting from n accumulated test
cases. -/
def generateFromCount (n : Nat) : List Endpoint → List TestCase
  | [] => []
  | ep :: rest =>
    let t := generateForEndpoint n ep
    t ++ generateFromCount (n + t.length) rest

/-- The mutable state of a TestGenerator: its accumulated test_cases list. -/
structure GenState where
  test_cases : List TestCase
deriving Repr, DecidableEq

/-- TestGenerator.generate_all_tests: resets self.test_cases to the empty
list, loops over the endpoints extending the four batches per endpoint, and
returns the accumulated list; modelled as explicit state passing. -/
def generate_all_tests (_g : GenState) (endpoints : List Endpoint) :
    GenState × List TestCase :=
  let r := generateFromCount 0 endpoints
  ({ test_cases := r }, r)

/-! ### src/test_runner.py -/

/-- TestStatus from src/test_runner.py. -/
inductive TestStatus where
  | PASSED
  | FAILED
  | SKIPPED
  | ERROR
deriving Repr, DecidableEq

/-- TestResult from src/test_runner.py.  Durations are rationals standing for
the source's floats; the assertions, tags and test_type fields keep their
dataclass defaults on every path the claims touch and are omitted. -/
structure TestResult where
  test_name : String
  test_file : String
  status : TestStatus
  duration_ms : ℚ
  error_message : Option String := none
deriving Repr, DecidableEq

/-- ExecutionSummary from src/test_runner.py; start_time and end_time are wall
clock values outside the embedding and are omitted, no claim mentions them. -/
structure ExecutionSummary where
  total_tests : Nat := 0
  passed_tests : Nat := 0
  failed_tests : Nat := 0
  skipped_tests : Nat := 0
  error_tests : Nat := 0
  total_duration_ms : ℚ := 0
  test_results : List TestResult := []
  errors : List String := []
deriving Repr, DecidableEq

/-- ExecutionSummary.success_rate: zero for an empty run, otherwise the passed
fraction scaled to a percentage. -/
def ExecutionSummary.success_rate (s : ExecutionSummary) : ℚ :=
  if s.total_tests = 0 then 0
  else ((s.passed_tests : ℚ) / (s.total_tests : ℚ)) * 100

/-- ExecutionSummary.execution_time_seconds. -/
def ExecutionSummary.execution_time_seconds (s : ExecutionSummary) : ℚ :=
  s.total_duration_ms / 1000

/-- The duration conversion inside PytestResultParser.parse: duration_ms
starts at zero; if the token contains the letter s, all s characters are
removed and the remainder is parsed as a float and scaled to milliseconds,
a parse failure leaving the zero; only otherwise is an ms token considered
(a branch no token can reach, since every string containing ms contains s). -/
def parseDuration (d : String) : ℚ :=
  if hasSub d "s" then
    match parseFloatQ (removeSub d "s") with
    | some q => q * 1000
    | none => 0
  else if hasSub d "ms" then
    match parseFloatQ (removeSub d "ms") with
    | some q => q
    | none => 0
  else 0

/-- The lazy file group of the result-line pattern: the shortest prefix of at
least one character ending in .py that is followed by two colons.  Returns the
characters before the earliest such marker in the tail of the list. -/
def splitAtFileMarkerAux : List Char → Option (List Char × List Char)
  | [] => none
  | c :: rest =>
    if (".py::".toList).isPrefixOf (c :: rest) then some ([], (c :: rest).drop 5)
    else
      match splitAtFileMarkerAux rest with
      | some (pre, post) => some (c :: pre, post)
      | none => none

/-- Split a result line into the file group (ending in .py) and the text after
the double colon, requiring at least one character before .py as the pattern
does. -/
def splitFileGroup : List Char → Option (List Char × List Char)
  | [] => none
  | c :: rest =>
    (splitAtFileMarkerAux rest).map (fun pr => (c :: pr.1 ++ ".py".toList, pr.2))

/-- The status alternation of the result-line pattern, tried in pattern
order. -/
def statusPrefixOf (l : List Char) : Option (TestStatus × List Char) :=
  if ("PASSED".toList).isPrefixOf l then some (TestStatus.PASSED, l.drop 6)
  else if ("FAILED".toList).isPrefixOf l then some (TestStatus.FAILED, l.drop 6)
  else if ("SKIPPED".toList).isPrefixOf l then some (TestStatus.SKIPPED, l.drop 7)
  else if ("ERROR".toList).isPrefixOf l then some (TestStatus.ERROR, l.drop 5)
  else none

/-- The optional bracketed duration group after the status: whitespace, an
opening bracket, then the lazily captured token up to the first closing
bracket.  Returns none when the optional group does not match. -/
def optionalDurationToken (l : List Char) : Option (List Char) :=
  let ws := l.takeWhile isPyWhitespace
  if ws.isEmpty then none
  else
    match l.drop ws.length with
    | '[' :: rest =>
      let tok := rest.takeWhile (fun c => !(c = ']'))
      if tok.isEmpty then none
      else if (rest.drop tok.length).isEmpty then none
      else some tok
    | _ => none

/-- The per-line search of PytestResultParser.parse on lines of the shape the
pattern targets: a file group ending in .py, a double colon, a test name free
of whitespace and opening brackets, whitespace, a status word, and optionally
a bracketed duration token.  A line not of this shape yields no result. -/
def parseResultLine (line : List Char) : Option TestResult :=
  match splitFileGroup line with
  | none => none
  | some (fileL, post) =>
    let nameL := post.takeWhile (fun c => !(isPyWhitespace c) && !(c = '['))
    if nameL.isEmpty then none
    else
      let r1 := post.drop nameL.length
      let wsL := r1.takeWhile isPyWhitespace
      if wsL.isEmpty then none
      else
        match statusPrefixOf (r1.drop wsL.length) with
        | none => none
        | some (st, r3) =>
          some
            { test_name := String.mk nameL
            , test_file := String.mk fileL
            , status := st
            , duration_ms :=
                match optionalDurationToken r3 with
                | some tok => parseDuration (String.mk tok)
                | none => 0 }

/-- PytestResultParser.parse: split the output into lines and collect one
TestResult per line the pattern matches.  The ANSI-escape stripping of the
constructor is the identity on escape-free output, and the second pass that
fills error_message mutates only that field, which no claim reads. -/
def parsePytestOutput (out : String) : List TestResult :=
  (splitLines out).filterMap parseResultLine

/-- TestRunner._update_summary: recompute the counters and the total duration
from the collected results. -/
def update_summary (s : ExecutionSummary) : ExecutionSummary :=
  { s with
    total_tests := s.test_results.length
  , passed_tests := s.test_results.countP (fun r => r.status == TestStatus.PASSED)
  , failed_tests := s.test_results.countP (fun r => r.status == TestStatus.FAILED)
  , skipped_tests := s.test_results.countP (fun r => r.status == TestStatus.SKIPPED)
  , error_tests := s.test_results.countP (fun r => r.status == TestStatus.ERROR)
  , total_duration_ms := (s.test_results.map (fun r => r.duration_ms)).sum }

/-- TestRunner.run_all_tests, with the filesystem and the subprocess made
explicit: test_files is what _find_test_files returned for test_dir, and
engine is the outcome of _run_command, an error value standing for the
exception a launch failure or timeout raises inside the try block.  A fresh
summary is built; when no test file is found or the engine errors, the message
is appended to the summary's errors and the empty results stand; otherwise the
parsed results are aggregated.  In every case a summary is returned: the
function is total, mirroring the except-all handler around the body. -/
def run_all_tests (test_dir : String) (test_files : List String)
    (engine : Except String String) : ExecutionSummary :=
  let s0 : ExecutionSummary := {}
  if test_files.isEmpty then
    { s0 with errors := s0.errors ++ ["No test files found in " ++ test_dir] }
  else
    match engine with
    | Except.error e => { s0 with errors := s0.errors ++ [e] }
    | Except.ok out => update_summary { s0 with test_results := parsePytestOutput out }

/-! ### src/story_parser.py -/

/-- An acceptance criterion as assembled by
StoryParser._extract_acceptance_criteria.  The source keys when and then are
Lean keywords and are carried here as whenText and thenText. -/
structure AcceptanceCriterion where
  id : String
  given : String
  whenText : String
  thenText : String
  full_text : String
deriving Repr, DecidableEq

/-- A user story as assembled by StoryParser._parse_markdown; the description
field is built by _extract_description, which no claim reads, and is
omitted. -/
structure UserStory where
  id : String
  title : String
  acceptance_criteria : List AcceptanceCriterion
deriving Repr, DecidableEq

/-- The multiline story-header pattern applied to one line: two number signs,
whitespace, an optional word User with whitespace, the word Story, whitespace,
a captured digit group, a colon, optional whitespace and the captured title
running to the end of the line.  Returns the digit group and the raw title. -/
def matchStoryHeader (l : List Char) : Option (String × String) :=
  if ("##".toList).isPrefixOf l then
    let r0 := l.drop 2
    let ws0 := r0.takeWhile isPyWhitespace
    if ws0.isEmpty then none
    else
      let r1 := r0.drop ws0.length
      let r2 :=
        if ("User".toList).isPrefixOf r1 then
          let ru := r1.drop 4
          let wsu := ru.takeWhile isPyWhitespace
          if wsu.isEmpty then r1 else ru.drop wsu.length
        else r1
      if ("Story".toList).isPrefixOf r2 then
        let r3 := r2.drop 5
        let ws1 := r3.takeWhile isPyWhitespace
        if ws1.isEmpty then none
        else
          let r4 := r3.drop ws1.length
          let digits := r4.takeWhile isDigitChar
          if digits.isEmpty then none
          else
            match r4.drop digits.length with
            | ':' :: r5 =>
              let ws2 := r5.takeWhile isPyWhitespace
              let title := r5.drop ws2.length
              if title.isEmpty then none
              else some (String.mk digits, String.mk title)
            | _ => none
      else none
  else none

/-- The separator between the Given and When captures: optional whitespace, a
comma, optional whitespace, the marked word When, then mandatory
whitespace. -/
def sepWhen (l : List Char) : Option (List Char) :=
  match l.drop (l.takeWhile isPyWhitespace).length with
  | ',' :: r1 =>
    let r2 := r1.drop (r1.takeWhile isPyWhitespace).length
    if ("**When**".toList).isPrefixOf r2 then
      let r3 := r2.drop 8
      let ws := r3.takeWhile isPyWhitespace
      if ws.isEmpty then none else some (r3.drop ws.length)
    else none
  | _ => none

/-- The separator between the When and Then captures, same shape with the
marked word Then. -/
def sepThen (l : List Char) : Option (List Char) :=
  match l.drop (l.takeWhile isPyWhitespace).length with
  | ',' :: r1 =>
    let r2 := r1.drop (r1.takeWhile isPyWhitespace).length
    if ("**Then**".toList).isPrefixOf r2 then
      let r3 := r2.drop 8
      let ws := r3.takeWhile isPyWhitespace
      if ws.isEmpty then none else some (r3.drop ws.length)
    else none
  | _ => none

/-- Lazy capture of one or more characters: the shortest nonempty split of the
input whose remainder satisfies the continuation, exactly the backtracking
order of a lazy dot group followed by the continuation pattern. -/
def lazySplitAux {β : Type} (cont : List Char → Option β) :
    List Char → List Char → Option (List Char × β)
  | _, [] => none
  | acc, c :: rest =>
    match cont rest with
    | some b => some (acc ++ [c], b)
    | none => lazySplitAux cont (acc ++ [c]) rest

/-- One attempt of the acceptance-criteria pattern at the head of the input:
digits, a dot, whitespace, the marked word Given, whitespace, then the three
lazy captures separated by the comma-marked When and Then separators, the
final capture being minimal and therefore one character.  Returns the three
raw captures and the remainder after the match. -/
def matchCriterionAt (l : List Char) : Option ((List Char × List Char × List Char) × List Char) :=
  let digits := l.takeWhile isDigitChar
  if digits.isEmpty then none
  else
    match l.drop digits.length with
    | '.' :: r1 =>
      let ws1 := r1.takeWhile isPyWhitespace
      if ws1.isEmpty then none
      else
        let r2 := r1.drop ws1.length
        if ("**Given**".toList).isPrefixOf r2 then
          let r3 := r2.drop 9
          let ws2 := r3.takeWhile isPyWhitespace
          if ws2.isEmpty then none
          else
            let p0 := r3.drop ws2.length
            match
              lazySplitAux (fun restG =>
                (sepWhen restG).bind (fun p1 =>
                  lazySplitAux (fun restW =>
                    (sepThen restW).bind (fun p2 =>
                      match p2 with
                      | [] => none
                      | c4 :: r4 => some ((c4, r4)))) [] p1)) [] p0
            with
            | some (g2, (g3, (c4, after))) => some ((g2, g3, [c4]), after)
            | none => none
        else none
    | _ => none

/-- The scan of re.finditer over the story content: try the criteria pattern
at every position from the left, and continue after the end of each match.
Fuel-driven; the fuel is the content length. -/
def scanCriteria : Nat → List Char → List (List Char × List Char × List Char)
  | 0, _ => []
  | _ + 1, [] => []
  | fuel + 1, l =>
    match matchCriterionAt l with
    | some (groups, after) => groups :: scanCriteria fuel after
    | none =>
      match l with
      | [] => []
      | _ :: rest => scanCriteria fuel rest

/-- The cleanup applied to each capture: strip, replace every marked-emphasis
pair of asterisks or newline with a space, and strip again.  Fuel-driven
substitution; the fuel is the input length. -/
def subEmphasisAux : Nat → List Char → List Char
  | 0, _ => []
  | _ + 1, [] => []
  | fuel + 1, c :: rest =>
    if ("**".toList).isPrefixOf (c :: rest) then ' ' :: subEmphasisAux fuel ((c :: rest).drop 2)
    else if c = '\n' then ' ' :: subEmphasisAux fuel rest
    else c :: subEmphasisAux fuel rest

def cleanCapture (l : List Char) : String :=
  let s1 := stripList isPyWhitespace l
  let s2 := subEmphasisAux s1.length s1
  String.mk (stripList isPyWhitespace s2)

/-- StoryParser._extract_acceptance_criteria on one story content string. -/
def extractAcceptanceCriteria (content : String) : List AcceptanceCriterion :=
  let ms := scanCriteria content.toList.length content.toList
  ms.enum.map (fun im =>
    let g := cleanCapture im.2.1
    let w := cleanCapture im.2.2.1
    let t := cleanCapture im.2.2.2
    { id := "AC" ++ toString (im.1 + 1)
    , given := g
    , whenText := w
    , thenText := t
    , full_text := "Given " ++ g ++ ", When " ++ w ++ ", Then " ++ t })

/-- Group the lines of the Markdown file by story header: each matched header
line owns the lines up to the next header.  Fuel-driven; the fuel is the
number of lines. -/
def groupStories : Nat → List (List Char) → List ((String × String) × List (List Char) × Bool)
  | 0, _ => []
  | _ + 1, [] => []
  | fuel + 1, line :: rest =>
    match matchStoryHeader line with
    | some h =>
      let body := rest.takeWhile (fun l => (matchStoryHeader l).isNone)
      let remaining := rest.drop body.length
      (h, body, !remaining.isEmpty) :: groupStories fuel remaining
    | none => groupStories fuel rest

/-- The slice of the file content owned by one story: from the end of its
header line to the start of the next header line or the end of the file,
reconstructed from the line grouping (a leading newline when any line follows
the header, and a trailing newline exactly when another header follows). -/
def storyContent (body : List (List Char)) (hasNext : Bool) : String :=
  String.intercalate "\n"
    (("" :: body.map String.mk) ++ (if hasNext then [""] else []))

/-- StoryParser._parse_markdown: match the story-header pattern line by line,
slice the content between consecutive headers, and build one story per header
with its extracted acceptance criteria; the story id prefixes US to the
captured number and the title is stripped. -/
def parseMarkdownStories (content : String) : List UserStory :=
  let ls := splitLines content
  (groupStories ls.length ls).map (fun g =>
    { id := "US" ++ g.1.1
    , title := pyStrip g.1.2
    , acceptance_criteria := extractAcceptanceCriteria (storyContent g.2.1 g.2.2) })

/-! ### Claim-side readings used by corrected claims -/

/-- Claim-side reading for C3: the numerically smallest documented 2xx
status. -/
def smallestDocumented2xx (responses : List String) : Option Nat :=
  ((responses.filterMap pyIntOpt).filter (fun s => 200 ≤ s && s < 300)).min?

/-- The scan actually performed by the happy-path generator, named for the
amended claim C3: the first response key in declared order that parses to an
integer in [200, 300). -/
def firstDocumented2xx (responses : List String) : Option Nat :=
  responses.findSome? (fun k =>
    match pyIntOpt k with
    | some s => if 200 ≤ s && s < 300 then some s else none
    | none => none)

/-! ### Helper lemmas -/

theorem map_fst_filter_keeps (p : Nat → Bool) :
    ∀ defs : List (Nat × String × String),
      (defs.filter (fun sc => p sc.1)).map (fun sc => sc.1)
        = (defs.map (fun sc => sc.1)).filter p := by
  intro defs
  induction defs with
  | nil => rfl
  | cons d rest ih => cases hd : p d.1 <;> simp [List.filter_cons, hd, ih]

/-- The expected statuses of the generated error-scenario batch are the fixed
status list filtered by the emission condition. -/
theorem errorStatuses_eq (n : Nat) (ep : Endpoint) :
    (generateErrorScenarioTests n ep).map (fun t => t.expected_status)
      = ([400, 401, 403, 404, 409, 500].filter (errorScenarioKeeps ep)) := by
  unfold generateErrorScenarioTests
  rw [List.map_map]
  exact map_fst_filter_keeps (errorScenarioKeeps ep) errorScenarioDefs

theorem map_pair_filterMap (pth : String) (item : PathItem) :
    ∀ ms : List String,
      ((ms.filterMap (fun m => (lookupKey item m).map (mkEndpointInfo pth m))).map
          (fun e => (e.path, e.method)))
        = (ms.filter (fun m => (lookupKey item m).isSome)).map (fun m => (pth, pyUpper m)) := by
  intro ms
  induction ms with
  | nil => rfl
  | cons m rest ih =>
    cases h : lookupKey item m with
    | none => simp [List.filterMap_cons, h, List.filter_cons, ih]
    | some op => simp [List.filterMap_cons, h, List.filter_cons, ih, mkEndpointInfo]

/-- The four status counters partition the result list. -/
theorem countP_status_partition (l : List TestResult) :
    l.countP (fun r => r.status == TestStatus.PASSED)
      + l.countP (fun r => r.status == TestStatus.FAILED)
      + l.countP (fun r => r.status == TestStatus.SKIPPED)
      + l.countP (fun r => r.status == TestStatus.ERROR) = l.length := by
  induction l with
  | nil => rfl
  | cons r rest ih =>
    cases hr : r.status <;> simp [List.countP_cons, hr] <;> omega

/-- The two bounds of the success rate, given that the passed count does not
exceed the total. -/
theorem success_rate_bounds (s : ExecutionSummary)
    (h : s.passed_tests ≤ s.total_tests) :
    0 ≤ s.success_rate ∧ s.success_rate ≤ 100 := by
  unfold ExecutionSummary.success_rate
  split
  · norm_num
  · rename_i ht
    have htpos : (0 : ℚ) < (s.total_tests : ℚ) := by
      exact_mod_cast Nat.pos_of_ne_zero ht
    constructor
    · positivity
    · have hle : (s.passed_tests : ℚ) / (s.total_tests : ℚ) ≤ 1 :=
        div_le_one_of_le₀ (by exact_mod_cast h) (le_of_lt htpos)
      calc (s.passed_tests : ℚ) / (s.total_tests : ℚ) * 100
          ≤ 1 * 100 := by
            exact mul_le_mul_of_nonneg_right hle (by norm_num)
        _ = 100 := by norm_num

/-- The invariant of claim C10. -/
def summaryInvariant (s : ExecutionSummary) : Prop :=
  s.total_tests = s.passed_tests + s.failed_tests + s.skipped_tests + s.error_tests
    ∧ s.total_duration_ms = (s.test_results.map (fun r => r.duration_ms)).sum
    ∧ 0 ≤ s.success_rate ∧ s.success_rate ≤ 100

theorem summaryInvariant_update (s0 : ExecutionSummary) :
    summaryInvariant (update_summary s0) := by
  refine ⟨?_, rfl, ?_, ?_⟩
  · exact (countP_status_partition s0.test_results).symm
  · exact (success_rate_bounds _ (List.countP_le_length _)).1
  · exact (success_rate_bounds _ (List.countP_le_length _)).2

theorem summaryInvariant_of_errors (es : List String) :
    summaryInvariant { errors := es } := by
  refine ⟨rfl, rfl, ?_, ?_⟩ <;> simp [ExecutionSummary.success_rate]

/-! ### Claims -/

/-- The one-endpoint input exhibiting the id collision of claim C1. -/
def epC1 : Endpoint :=
  { path := "/agents", method := "GET", summary := "", tags := [], responses := [] }

/-- C1: the claim says every emitted test case of a synthesis run has id
test_n with n its distinct 1-based emission position.  On the code, the id
expression reads len(self.test_cases) while each category batch accumulates in
a local list, so the whole batch shares one id: for a single GET endpoint with
no documented responses the twelve emitted cases carry the ids below, with
test_2 and test_5 and test_9 each repeated, and the id list is not
duplicate-free. -/
theorem C1_ids_collide :
    ((generate_all_tests { test_cases := [] } [epC1]).2.map (fun t => t.id))
        = [ "test_1", "test_2", "test_2", "test_2"
          , "test_5", "test_5", "test_5", "test_5"
          , "test_9", "test_9", "test_9", "test_9" ]
      ∧ ¬ ((generate_all_tests { test_cases := [] } [epC1]).2.map (fun t => t.id)).Nodup := by
  exact ⟨by decide, by decide⟩

/-- C2: an error-scenario case for status s is emitted exactly when s is one
of the six fixed statuses and either documented in the endpoint's responses or
among the four always-included statuses; the emitted statuses follow the fixed
order as a sublist of it; and the POST /agents example with documented
responses 201, 400 and 409 yields exactly the five statuses 400, 401, 403,
404, 409. -/
theorem C2_error_scenario_selection :
    (∀ (ep : Endpoint) (n s : Nat),
        s ∈ (generateErrorScenarioTests n ep).map (fun t => t.expected_status) ↔
          s ∈ [400, 401, 403, 404, 409, 500]
            ∧ (toString s ∈ ep.responses ∨ s ∈ [400, 401, 403, 404]))
      ∧ (∀ (ep : Endpoint) (n : Nat),
          List.Sublist ((generateErrorScenarioTests n ep).map (fun t => t.expected_status))
            [400, 401, 403, 404, 409, 500])
      ∧ ((generateErrorScenarioTests 0
            { path := "/agents", method := "POST", summary := "", tags := []
            , responses := ["201", "400", "409"] }).map (fun t => t.expected_status)
          = [400, 401, 403, 404, 409]) := by
  refine ⟨fun ep n s => ?_, fun ep n => ?_, by decide⟩
  · rw [errorStatuses_eq]
    simp only [List.mem_filter, errorScenarioKeeps, Bool.or_eq_true, decide_eq_true_eq,
      beq_iff_eq, List.mem_cons, List.not_mem_nil, or_false]
    tauto
  · rw [errorStatuses_eq]
    exact List.filter_sublist _

/-- The endpoint exhibiting the counterexample to claim C3: two documented
2xx responses declared in the order 204, 200. -/
def epC3 : Endpoint :=
  { path := "/x", method := "GET", summary := "", tags := [], responses := ["204", "200"] }

/-- C3 counterexample: the claim says the smallest documented 2xx status wins,
but for responses declared in the order 204, 200 the happy-path case expects
204 while the smallest documented 2xx status is 200. -/
theorem C3_counterexample :
    ((generateHappyPathTests 0 epC3).map (fun t => t.expected_status) = [204])
      ∧ smallestDocumented2xx epC3.responses = some 200
      ∧ (204 : Nat) ≠ 200 := by
  exact ⟨by decide, by decide, by decide⟩

/-- C3 amended: the happy-path expected status is 201 for POST, 204 for
DELETE and 200 otherwise, unless some documented response status lies in
[200, 300), in which case the first such status in the responses' declared
(insertion) order wins, not the numerically smallest. -/
theorem C3_happy_path_status (ep : Endpoint) (n : Nat) :
    (generateHappyPathTests n ep).map (fun t => t.expected_status)
      = [match firstDocumented2xx ep.responses with
         | some s => s
         | none =>
           if ep.method = "POST" then 201
           else if ep.method = "DELETE" then 204
           else 200] := by
  rfl

/-- C4: the claim (and the source's own comment) says duration tokens ending
in ms parse to that many milliseconds.  Tokens in seconds do convert by the
factor 1000 -- the example line yields durationMs 120 with status PASSED --
but every token containing ms also contains the letter s, so the code takes
the seconds branch, strips the s leaving a malformed number, and the
ValueError handler leaves zero: the token 100ms yields 0, not 100. -/
theorem C4_duration_conversion :
    parsePytestOutput "tests/test_agents.py::test_create PASSED [0.12s]"
        = [{ test_name := "test_create", test_file := "tests/test_agents.py"
           , status := TestStatus.PASSED, duration_ms := parseDuration "0.12s" }]
      ∧ parseDuration "0.12s" = 120
      ∧ parseDuration "100ms" = 0 := by
  have h : parseDuration "0.12s"
      = ((natOfDigits ('0' :: []) : ℚ)
          + (natOfDigits ('1' :: '2' :: []) : ℚ) / (10 : ℚ) ^ 2) * 1000 := rfl
  have h0 : natOfDigits ('0' :: []) = 0 := by decide
  have h12 : natOfDigits ('1' :: '2' :: []) = 12 := by decide
  refine ⟨rfl, ?_, rfl⟩
  rw [h, h0, h12]
  norm_num

/-- The story Markdown of claim C5. -/
def storyInputC5 : String :=
  "## Story 1: Create Agent\n1. **Given** a valid payload, **When** POST /agents is called, **Then** a 201 is returned."

/-- C5: the claim says the example yields then equal to the full clause.  The
code produces the story US1 titled Create Agent with one criterion whose given
and when match the claim, but the final capture group of the criteria pattern
is lazy with nothing after it, so it matches exactly one character: the then
field is the single letter a, not the claimed full clause. -/
theorem C5_then_is_one_char :
    parseMarkdownStories storyInputC5
        = [{ id := "US1", title := "Create Agent"
           , acceptance_criteria :=
               [{ id := "AC1", given := "a valid payload"
                , whenText := "POST /agents is called", thenText := "a"
                , full_text := "Given a valid payload, When POST /agents is called, Then a" }] }]
      ∧ "a" ≠ "a 201 is returned." := by
  exact ⟨by decide, by decide⟩

/-- The document exhibiting the counterexample to claim C6: a path item
declaring a get and a trace operation, valid OpenAPI 3.0 and accepted by the
repository's own validate_endpoint. -/
def docC6 : List (String × PathItem) := [("/x", [("get", {}), ("trace", {})])]

/-- C6 counterexample: the claim says no explicitly declared method is
dropped, but the extraction iterates a fixed seven-method list, so the trace
operation of a valid path item is dropped: the document declares the pairs
(/x, GET) and (/x, TRACE) while getEndpoints returns only (/x, GET). -/
theorem C6_counterexample :
    validateEndpointOk [("get", ({} : Operation)), ("trace", {})] = true
      ∧ ("/x", "TRACE") ∈ declaredMethodPairs docC6
      ∧ (extractEndpoints docC6).map (fun e => (e.path, e.method)) = [("/x", "GET")]
      ∧ (extractEndpoints docC6).map (fun e => (e.path, e.method)) ≠ declaredMethodPairs docC6 := by
  exact ⟨by decide, by decide, by decide, by decide⟩

/-- C6 amended: getEndpoints returns one endpoint per (path, method) pair the
document declares with the method drawn from the recognized seven-method set
-- none of those is invented or dropped, and operations under any other key,
such as trace, are dropped -- with each path's endpoints consecutive in the
fixed order GET, POST, PUT, DELETE, PATCH, HEAD, OPTIONS. -/
theorem C6_extraction_exact (paths : List (String × PathItem)) :
    (extractEndpoints paths).map (fun e => (e.path, e.method))
      = paths.flatMap (fun pi =>
          (httpMethods.filter (fun m => (lookupKey pi.2 m).isSome)).map
            (fun m => (pi.1, pyUpper m))) := by
  induction paths with
  | nil => rfl
  | cons p rest ih =>
    simp only [extractEndpoints, List.flatMap_cons, List.map_append] at ih ⊢
    rw [map_pair_filterMap, ih]

/-- C7: the success rate is the passed fraction scaled to a percentage when
the total is nonzero and exactly zero when the total is zero -- the
zero-denominator branch returns before any division -- and the execution time
in seconds is the total duration divided by 1000. -/
theorem C7_success_rate (s : ExecutionSummary) :
    (s.total_tests = 0 → s.success_rate = 0)
      ∧ (s.total_tests ≠ 0 →
          s.success_rate = (s.passed_tests : ℚ) / (s.total_tests : ℚ) * 100)
      ∧ s.execution_time_seconds = s.total_duration_ms / 1000 := by
  refine ⟨fun h => ?_, fun h => ?_, rfl⟩ <;>
    simp [ExecutionSummary.success_rate, h]

/-- Witness for C7 at concrete summaries: the empty run has rate zero and a
run of four tests with three passed has rate 75. -/
theorem C7_success_rate_witness :
    ({} : ExecutionSummary).success_rate = 0
      ∧ ({ total_tests := 4, passed_tests := 3 } : ExecutionSummary).success_rate = 75 := by
  constructor
  · exact (C7_success_rate {}).1 rfl
  · have h := (C7_success_rate { total_tests := 4, passed_tests := 3 }).2.1 (by decide)
    rw [h]; norm_num

/-- C8: run_all_tests is a total function into summaries -- the except-all
handler never lets an exception reach the caller -- and on an engine launch
failure or timeout, modelled as an error outcome of the subprocess call, the
message is appended to the summary's errors with the result list left empty;
with no test files the not-found message is the only error; on a successful
engine run nothing is appended to errors and individual failures surface only
as parsed TestResult data. -/
theorem C8_failure_semantics (dir : String) (files : List String) (e out : String) :
    (files = [] →
        (run_all_tests dir files (Except.error e)).errors
            = ["No test files found in " ++ dir]
          ∧ (run_all_tests dir files (Except.error e)).test_results = [])
      ∧ (files ≠ [] →
          (run_all_tests dir files (Except.error e)).errors = [e]
            ∧ (run_all_tests dir files (Except.error e)).test_results = [])
      ∧ (files ≠ [] →
          (run_all_tests dir files (Except.ok out)).errors = []
            ∧ (run_all_tests dir files (Except.ok out)).test_results
                = parsePytestOutput out) := by
  refine ⟨fun h => ?_, fun h => ?_, fun h => ?_⟩
  · subst h; exact ⟨rfl, rfl⟩
  · cases files with
    | nil => exact absurd rfl h
    | cons a l => exact ⟨rfl, rfl⟩
  · cases files with
    | nil => exact absurd rfl h
    | cons a l => exact ⟨rfl, rfl⟩

/-- Witness for C8 at a concrete failing engine launch. -/
theorem C8_failure_semantics_witness :
    (run_all_tests "generated_tests" ["test_a.py"] (Except.error "engine launch failed")).errors
        = ["engine launch failed"]
      ∧ (run_all_tests "generated_tests" ["test_a.py"]
          (Except.error "engine launch failed")).test_results = [] :=
  (C8_failure_semantics "generated_tests" ["test_a.py"] "engine launch failed" "").2.1
    (by decide)

/-- C9: generate_all_tests resets the accumulated list before generating, so
a second run on the same endpoint sequence returns a byte-identical test-case
sequence, and the output does not depend on the generator state at all. -/
theorem C9_idempotent (g g2 : GenState) (endpoints : List Endpoint) :
    (generate_all_tests (generate_all_tests g endpoints).1 endpoints).2
        = (generate_all_tests g endpoints).2
      ∧ (generate_all_tests g endpoints).2 = (generate_all_tests g2 endpoints).2 :=
  ⟨rfl, rfl⟩

/-- C10: after aggregation the total equals the sum of the four status
counters, the total duration is the sum of the per-result durations, and the
success rate lies in [0, 100]; the invariant also holds of every summary
run_all_tests returns, the error paths producing all-zero counters. -/
theorem C10_summary_invariants (s0 : ExecutionSummary) (dir : String)
    (files : List String) (engine : Except String String) :
    summaryInvariant (update_summary s0)
      ∧ summaryInvariant (run_all_tests dir files engine) := by
  refine ⟨summaryInvariant_update s0, ?_⟩
  unfold run_all_tests
  cases files with
  | nil => exact summaryInvariant_of_errors _
  | cons a l =>
    cases engine with
    | error e => exact summaryInvariant_of_errors _
    | ok out => exact summaryInvariant_update _

end Acms
